import Mathlib

/-!
Verification of the `PrecisionPlugin` base class
(`src/pytorch_lightning/plugins/precision/precision_plugin.py`).

The plugin's methods are shallowly embedded as pure Lean functions.  Side
effects (calls to the optimizer, to model hooks, to the logging sink) are
made observable as explicit event traces (`List Event`); mutable state that
a claim cares about (the lightning module's `_current_fx_name` field) is
threaded explicitly.  Values that the plugin merely passes through
(tensors, losses, optimizers, clip thresholds) are represented by simple
concrete types (`Int`, `Nat`) since the plugin never inspects them.
-/

/-- A trainable parameter, identified abstractly. -/
abbrev Param := Nat

/-- One optimizer parameter group: an ordered list of parameters
(the `group["params"]` list of the source). -/
structure ParamGroup where
  params : List Param
deriving DecidableEq, Repr

/-- The gradient-clipping algorithm enum (`GradClipAlgorithmType`),
with its two members `NORM` and `VALUE`. -/
inductive GradClipAlgorithmType where
  | norm : GradClipAlgorithmType
  | value : GradClipAlgorithmType
deriving DecidableEq, Repr

/-- Observable calls made by the plugin.  `trackGradNormCall` and
`clipGradientsCall` mark the invocation of `_track_grad_norm` and
`clip_gradients` from `pre_optimizer_step`; the other constructors are the
external calls the plugin performs (logging sink, model hook, trainer hook,
optimizer step). -/
inductive Event where
  | trackGradNormCall : Event
  | logGradNorm (fx : String) (gnd : List (String × Int)) : Event
  | clipGradientsCall : Event
  | configureGradientClipping (optimizer : Nat) (optimizer_idx : Nat)
      (clip_val : Int) (alg : GradClipAlgorithmType) : Event
  | callHook (name : String) (optimizer : Nat) (optimizer_idx : Nat) : Event
  | optimizerStep : Event
deriving DecidableEq, Repr

/-- The fields of the trainer that `pre_optimizer_step`, `_track_grad_norm`
and `clip_gradients` read. -/
structure Trainer where
  track_grad_norm : Int
  gradient_clip_val : Int
  gradient_clip_algorithm : GradClipAlgorithmType
  use_deepspeed : Bool
deriving DecidableEq, Repr

/-- The lightning-module state that `_track_grad_norm` mutates:
its `_current_fx_name` field. -/
structure LModuleState where
  current_fx_name : String
deriving DecidableEq, Repr

/-- `master_params`: `for group in optimizer.param_groups: yield from
group["params"]` — flatten the parameter groups in order. -/
def master_params : List ParamGroup → List Param
  | [] => []
  | g :: gs => g.params ++ master_params gs

/-- `connect(model, optimizers, lr_schedulers)` returns its three arguments
as a tuple. -/
def connect {α β γ : Type} (model : α) (optimizers : List β)
    (lr_schedulers : List γ) : α × List β × List γ :=
  (model, optimizers, lr_schedulers)

/-- `optimizer_step`: `skipped_backward = closure_result is None; if not
model.automatic_optimization or not skipped_backward: optimizer.step()`.
The returned trace records whether `optimizer.step` was invoked. -/
def optimizer_step (automatic_optimization : Bool)
    (closure_result : Option Int) : List Event :=
  let skipped_backward := closure_result.isNone
  if (!automatic_optimization) || (!skipped_backward) then
    [Event.optimizerStep]
  else
    []

/-- `_track_grad_norm(trainer)`: return early when
`float(trainer.track_grad_norm) == -1`; otherwise, with `grad_norm_dict`
the result of the external `grad_norm` utility (supplied here as the
parameter `gnd`), if the dict is non-empty set `_current_fx_name` to
"on_before_optimizer_step", call `log_grad_norm`, and restore the previous
`_current_fx_name`.  Returns the final module state and the trace of
logging-sink calls. -/
def _track_grad_norm (track_grad_norm_cfg : Int)
    (gnd : List (String × Int)) (st : LModuleState) :
    LModuleState × List Event :=
  if track_grad_norm_cfg = -1 then
    (st, [])
  else if gnd = [] then
    (st, [])
  else
    let prev_fx := st.current_fx_name
    let st1 : LModuleState := { current_fx_name := ("on_before_optimizer_step") }
    let ev := Event.logGradNorm st1.current_fx_name gnd
    ({ current_fx_name := prev_fx }, [ev])

/-- `clip_gradients(optimizer, optimizer_idx, clip_val, alg, model)`:
return immediately when
`self.trainer.accelerator_connector.use_deepspeed or model is None`;
otherwise call `model.configure_gradient_clipping(optimizer, optimizer_idx,
clip_val, alg)`. -/
def clip_gradients (use_deepspeed : Bool) (model : Option Unit)
    (optimizer : Nat) (optimizer_idx : Nat) (clip_val : Int)
    (gradient_clip_algorithm : GradClipAlgorithmType) : List Event :=
  if use_deepspeed || model.isNone then
    []
  else
    [Event.configureGradientClipping optimizer optimizer_idx clip_val
      gradient_clip_algorithm]

/-- `pre_optimizer_step(model, optimizer, optimizer_idx)`:
if `optimizer_idx == 0` call `_track_grad_norm(trainer)`; then call
`clip_gradients(optimizer, optimizer_idx, trainer.gradient_clip_val,
trainer.gradient_clip_algorithm, model)`; finally, if the model is a
`LightningModule`, call the trainer hook `on_before_optimizer_step`.
The invocations of `_track_grad_norm` and `clip_gradients` are marked in
the trace by `trackGradNormCall` / `clipGradientsCall` at their call
sites. -/
def pre_optimizer_step (tr : Trainer) (model_is_lightning : Bool)
    (st : LModuleState) (gnd : List (String × Int))
    (optimizer : Nat) (optimizer_idx : Nat) : LModuleState × List Event :=
  let norm := if optimizer_idx = 0 then
      let r := _track_grad_norm tr.track_grad_norm gnd st
      (r.1, Event.trackGradNormCall :: r.2)
    else (st, [])
  let clip_evs := Event.clipGradientsCall ::
    clip_gradients tr.use_deepspeed (some ()) optimizer optimizer_idx
      tr.gradient_clip_val tr.gradient_clip_algorithm
  let hook_evs := if model_is_lightning then
      [Event.callHook ("on_before_optimizer_step") optimizer optimizer_idx]
    else []
  (norm.1, norm.2 ++ clip_evs ++ hook_evs)

/-- The `model` argument of `backward`: `None`, a plain `torch.nn.Module`,
or a full `pl.LightningModule`. -/
inductive ModelArg where
  | lightningModule : ModelArg
  | plainModule : ModelArg
deriving DecidableEq, Repr

/-- The test `model is not None and isinstance(model, pl.LightningModule)`
of `backward`. -/
def isFullModel : Option ModelArg → Bool
  | some ModelArg.lightningModule => true
  | _ => false

/-- The single backward call that `backward` performs: either the model's
own `model.backward(loss, optimizer, *args)`, or the tensor-level
`tensor.backward(*args)`. -/
inductive BackwardCall where
  | modelBackward (loss : Int) (optimizer : Option Nat) (args : List Int) :
      BackwardCall
  | tensorBackward (loss : Int) (args : List Int) : BackwardCall
deriving DecidableEq, Repr

/-- `_run_backward(tensor, model, *args)`: performs `tensor.backward(*args)`.
The `model` positional parameter is accepted and unused. -/
def _run_backward (tensor : Int) (model : Int) (args : List Int) :
    BackwardCall :=
  BackwardCall.tensorBackward tensor args

/-- `backward(model, closure_loss, optimizer, *args)`: if `model` is a
`LightningModule`, call `model.backward(closure_loss, optimizer, *args)`;
otherwise call `self._run_backward(closure_loss, *args)`, whose signature
`_run_backward(tensor, model, *args)` binds the first element of `args` to
its `model` parameter.  With no full model and an empty `args`, that call
has too few positional arguments and raises a `TypeError`, modelled here as
`none`. -/
def backward (model : Option ModelArg) (closure_loss : Int)
    (optimizer : Option Nat) (args : List Int) : Option BackwardCall :=
  if isFullModel model then
    some (BackwardCall.modelBackward closure_loss optimizer args)
  else
    match args with
    | a :: rest => some ( _run_backward closure_loss a rest)
    | [] => none

/-- A (possibly overridden) `forward_context` context manager, observed as
the traces its `__enter__` and `__exit__` produce.  The base class's own
`forward_context` is the empty one. -/
structure CtxMgr where
  enter : List Event
  exit : List Event
deriving DecidableEq, Repr

/-- One execution of a wrapped body: the trace it produces and whether it
finished normally (`ok = true`) or raised (`ok = false`). -/
structure BodyRun where
  trace : List Event
  ok : Bool
deriving DecidableEq, Repr

/-- A `with cm: <body>` block: `cm.enter` runs, the body runs exactly once,
and `cm.exit` runs on every exit path (normal or raising); an exception
from the body propagates unchanged. -/
def withCtx (cm : CtxMgr) (body : BodyRun) : BodyRun :=
  { trace := cm.enter ++ body.trace ++ cm.exit, ok := body.ok }

/-- Running a body inside the dispatched `self.forward_context()` scope. -/
def forward_context (fc : CtxMgr) (body : BodyRun) : BodyRun :=
  withCtx fc body

/-- `train_step_context`: `with self.forward_context(): yield`. -/
def train_step_context (fc : CtxMgr) (body : BodyRun) : BodyRun :=
  forward_context fc body

/-- `val_step_context`: `with self.forward_context(): yield`. -/
def val_step_context (fc : CtxMgr) (body : BodyRun) : BodyRun :=
  forward_context fc body

/-- `test_step_context`: `with self.forward_context(): yield`. -/
def test_step_context (fc : CtxMgr) (body : BodyRun) : BodyRun :=
  forward_context fc body

/-- `predict_step_context`: `with self.forward_context(): yield`. -/
def predict_step_context (fc : CtxMgr) (body : BodyRun) : BodyRun :=
  forward_context fc body

/-- Events produced inside `_track_grad_norm` (the norm-tracking phase of
`pre_optimizer_step`), together with its call marker. -/
def isNormEvent : Event → Bool
  | Event.trackGradNormCall => true
  | Event.logGradNorm _ _ => true
  | _ => false

/-- Events produced inside `clip_gradients` (the clipping phase of
`pre_optimizer_step`), together with its call marker. -/
def isClipEvent : Event → Bool
  | Event.clipGradientsCall => true
  | Event.configureGradientClipping _ _ _ _ => true
  | _ => false

/-- Every event `_track_grad_norm` emits belongs to the norm-tracking
phase. -/
lemma track_grad_norm_events_norm (cfg : Int) (gnd : List (String × Int))
    (st : LModuleState) :
    ∀ e ∈ (_track_grad_norm cfg gnd st).2, isNormEvent e = true := by
  intro e he
  unfold _track_grad_norm at he
  split at he
  · simp at he
  · split at he
    · simp at he
    · have h : e = Event.logGradNorm ("on_before_optimizer_step") gnd := by
        simpa using he
      rw [h]
      rfl
/-- If the left part of an appended trace has no `Q` event and the right
part has no `P` event, every `P` event precedes every `Q` event. -/
lemma ordered_append {P Q : Event → Bool} {xs ys : List Event}
    (hx : ∀ e ∈ xs, Q e = false) (hy : ∀ e ∈ ys, P e = false) :
    ∀ i j ei ej, (xs ++ ys).get? i = some ei →
      (xs ++ ys).get? j = some ej →
      P ei = true → Q ej = true → i < j := by
  intro i j ei ej hei hej hP hQ
  have hilen : i < xs.length := by
    by_contra hc
    push_neg at hc
    rw [List.get?_append_right hc] at hei
    have hmem : ei ∈ ys := List.get?_mem hei
    have hfalse := hy _ hmem
    rw [hP] at hfalse
    exact absurd hfalse (by decide)
  have hjlen : xs.length ≤ j := by
    by_contra hc
    push_neg at hc
    rw [List.get?_append hc] at hej
    have hmem : ej ∈ xs := List.get?_mem hej
    have hfalse := hx _ hmem
    rw [hQ] at hfalse
    exact absurd hfalse (by decide)
  omega

/-- A norm-phase event is not a clipping-phase event. -/
lemma norm_not_clip (e : Event) (h : isNormEvent e = true) :
    isClipEvent e = false := by
  cases e <;> simp_all [isNormEvent, isClipEvent]

/-- A norm-phase event is not the optimizer step. -/
lemma norm_not_step (e : Event) (h : isNormEvent e = true) :
    e ≠ Event.optimizerStep := by
  cases e <;> simp_all [isNormEvent]

/-- A clipping-phase event is not the optimizer step. -/
lemma clip_not_step (e : Event) (h : isClipEvent e = true) :
    e ≠ Event.optimizerStep := by
  cases e <;> simp_all [isClipEvent]

/-- Every event `clip_gradients` emits belongs to the clipping phase. -/
lemma clip_gradients_events_clip (dz : Bool) (model : Option Unit)
    (optimizer optimizer_idx : Nat) (clip_val : Int)
    (alg : GradClipAlgorithmType) :
    ∀ e ∈ clip_gradients dz model optimizer optimizer_idx clip_val alg,
      isClipEvent e = true := by
  intro e he
  unfold clip_gradients at he
  split at he
  · simp at he
  · simp at he
    rw [he]
    rfl

/-- C2: `master_params` yields exactly the concatenation of each group's
parameter list in the groups' registered order: it equals the flattening
of the group parameter lists, and the multiplicity of every parameter in
it is the sum of its multiplicities over the groups (no omission,
reordering, duplication, or deduplication beyond what the groups
contain). -/
theorem master_params_concat (gs : List ParamGroup) :
    master_params gs = (gs.map ParamGroup.params).flatten
  ∧ ∀ p : Param, (master_params gs).count p =
      ((gs.map ParamGroup.params).map (List.count p)).sum := by
  have hflat : master_params gs = (gs.map ParamGroup.params).flatten := by
    induction gs with
    | nil => rfl
    | cons g gs ih => simp [master_params, ih]
  refine ⟨hflat, ?_⟩
  intro p
  rw [hflat, List.count_flatten, List.map_map]

/-- C9: `connect` returns exactly the model, optimizer list and scheduler
list it was given, unchanged and in the same order. -/
theorem connect_identity {α β γ : Type} (model : α) (optimizers : List β)
    (lr_schedulers : List γ) :
    connect model optimizers lr_schedulers =
      (model, optimizers, lr_schedulers) := rfl

/-- C1: `optimizer_step` invokes `optimizer.step` iff it is not the case
that the model is in automatic optimization and the closure result is the
skipped marker (`None`); in particular the step runs whenever the closure
result is a valid loss, and whenever the model is in manual
optimization. -/
theorem optimizer_step_gating (auto : Bool) (closure_result : Option Int) :
    (Event.optimizerStep ∈ optimizer_step auto closure_result ↔
      ¬ (auto = true ∧ closure_result = none))
  ∧ (∀ l : Int, closure_result = some l →
      Event.optimizerStep ∈ optimizer_step auto closure_result)
  ∧ (auto = false →
      Event.optimizerStep ∈ optimizer_step auto closure_result) := by
  cases auto <;> cases closure_result <;>
    simp [optimizer_step]

/-- Witness for C1: with a valid loss in automatic mode the step runs, and
with the skipped marker in manual mode the step runs. -/
theorem optimizer_step_gating_witness :
    Event.optimizerStep ∈ optimizer_step true (some 3)
  ∧ Event.optimizerStep ∈ optimizer_step false none :=
  ⟨(optimizer_step_gating true (some 3)).2.1 3 rfl,
   (optimizer_step_gating false none).2.2 rfl⟩

/-- C5: `_track_grad_norm` with the disabled sentinel `-1` is a no-op
(state unchanged, zero logging-sink calls), and with an empty computed
norm result no report is emitted and no error is raised (state unchanged,
empty trace). -/
theorem track_grad_norm_noop (gnd : List (String × Int))
    (st : LModuleState) :
    _track_grad_norm (-1) gnd st = (st, [])
  ∧ (∀ cfg : Int, gnd = [] → _track_grad_norm cfg gnd st = (st, [])) := by
  constructor
  · simp [_track_grad_norm]
  · intro cfg h
    subst h
    by_cases hc : cfg = -1 <;> simp [_track_grad_norm, hc]

/-- Witness for C5: a concrete enabled configuration with an empty norm
result is a no-op. -/
theorem track_grad_norm_noop_witness :
    _track_grad_norm 2 [] { current_fx_name := ("training_step") } =
      ({ current_fx_name := ("training_step") }, []) :=
  (track_grad_norm_noop [] _).2 2 rfl

/-- C10: `_track_grad_norm` leaves `_current_fx_name` unchanged on normal
return, and every logging call it makes happens with `_current_fx_name`
set to "on_before_optimizer_step". -/
theorem track_grad_norm_fx_frame (cfg : Int) (gnd : List (String × Int))
    (st : LModuleState) :
    (_track_grad_norm cfg gnd st).1.current_fx_name = st.current_fx_name
  ∧ ∀ fx g, Event.logGradNorm fx g ∈ (_track_grad_norm cfg gnd st).2 →
      fx = ("on_before_optimizer_step") := by
  unfold _track_grad_norm
  split
  · simp
  · split
    · simp
    · constructor
      · rfl
      · intro fx g hmem
        simp at hmem
        exact hmem.1

/-- Witness for C10: on a concrete run that does emit a report, the
fx-name field is restored and the report is made under
"on_before_optimizer_step". -/
theorem track_grad_norm_fx_frame_witness :
    (_track_grad_norm 2 [(("g"), 1)]
        { current_fx_name := ("training_step") }).1.current_fx_name =
      ("training_step")
  ∧ ("on_before_optimizer_step" : String) = ("on_before_optimizer_step") :=
  ⟨(track_grad_norm_fx_frame 2 [(("g"), 1)] _).1,
   (track_grad_norm_fx_frame 2 [(("g"), 1)]
      { current_fx_name := ("training_step") }).2
     ("on_before_optimizer_step") [(("g"), 1)] (by decide)⟩

/-- C4: `clip_gradients` performs no action when the deepspeed backend is
active or no model is supplied; otherwise it calls the model's
`configure_gradient_clipping` hook exactly once, passing the optimizer,
the index, the clip value and the clip algorithm through unchanged. -/
theorem clip_gradients_gating (dz : Bool) (model : Option Unit)
    (optimizer optimizer_idx : Nat) (clip_val : Int)
    (alg : GradClipAlgorithmType) :
    ((dz = true ∨ model = none) →
      clip_gradients dz model optimizer optimizer_idx clip_val alg = [])
  ∧ (dz = false → model ≠ none →
      clip_gradients dz model optimizer optimizer_idx clip_val alg =
        [Event.configureGradientClipping optimizer optimizer_idx clip_val
          alg]) := by
  constructor
  · rintro (h | h)
    · subst h
      cases model <;> simp [clip_gradients]
    · subst h
      simp [clip_gradients]
  · intro hdz hm
    cases model with
    | none => exact absurd rfl hm
    | some u => subst hdz; simp [clip_gradients]

/-- Witness for C4: deepspeed active is a no-op; a supplied model without
deepspeed yields exactly one pass-through hook call. -/
theorem clip_gradients_gating_witness :
    clip_gradients true (some ()) 1 0 5 GradClipAlgorithmType.norm = []
  ∧ clip_gradients false (some ()) 1 0 5 GradClipAlgorithmType.value =
      [Event.configureGradientClipping 1 0 5 GradClipAlgorithmType.value] :=
  ⟨(clip_gradients_gating true (some ()) 1 0 5
      GradClipAlgorithmType.norm).1 (Or.inl rfl),
   (clip_gradients_gating false (some ()) 1 0 5
      GradClipAlgorithmType.value).2 rfl (by simp)⟩

/-- C8: the train/validation/test/predict step contexts are each
observationally equivalent to the generic forward context: each equals
wrapping the body in `forward_context`, whose trace enters the context,
runs the body exactly once, and exits on every exit path (the exit trace
is appended whether the body finished normally or raised, and the body's
outcome propagates unchanged). -/
theorem step_contexts_equiv (fc : CtxMgr) (body : BodyRun) :
    train_step_context fc body = forward_context fc body
  ∧ val_step_context fc body = forward_context fc body
  ∧ test_step_context fc body = forward_context fc body
  ∧ predict_step_context fc body = forward_context fc body
  ∧ (forward_context fc body).trace = fc.enter ++ body.trace ++ fc.exit
  ∧ (forward_context fc body).ok = body.ok :=
  ⟨rfl, rfl, rfl, rfl, rfl, rfl⟩

/-- C3 counterexample: with no model supplied and no extra arguments,
`backward` performs no backward call at all — the internal
`self._run_backward(closure_loss)` call is short one positional argument
(its `model` parameter) and raises a `TypeError`, modelled as `none` —
rather than performing the tensor-level backward the claim promises. -/
theorem backward_no_model_no_args : backward none 0 none [] = none := rfl

/-- C3 (amended): `backward` delegates to the model's own backward
implementation, passing loss, optimizer and the extra arguments, exactly
when the supplied model is a full `LightningModule`; when it is not and at
least one extra argument is supplied, the first extra argument is consumed
as the `model` parameter of `_run_backward` and a direct tensor-level
backward call is performed on the loss with the remaining arguments. -/
theorem backward_dispatch (model : Option ModelArg) (closure_loss : Int)
    (optimizer : Option Nat) (args : List Int) :
    (isFullModel model = true →
      backward model closure_loss optimizer args =
        some (BackwardCall.modelBackward closure_loss optimizer args))
  ∧ (isFullModel model = false → ∀ a rest, args = a :: rest →
      backward model closure_loss optimizer args =
        some (BackwardCall.tensorBackward closure_loss rest)) := by
  constructor
  · intro h
    simp [backward, h]
  · intro h a rest he
    subst he
    simp [backward, h, _run_backward]

/-- Witness for C3 (amended): a full model delegates with all arguments
passed through; no model with one leading extra argument performs the
tensor-level backward on the remaining arguments. -/
theorem backward_dispatch_witness :
    backward (some ModelArg.lightningModule) 1 (some 0) [5] =
      some (BackwardCall.modelBackward 1 (some 0) [5])
  ∧ backward none 1 none [7, 5] =
      some (BackwardCall.tensorBackward 1 [5]) :=
  ⟨(backward_dispatch (some ModelArg.lightningModule) 1 (some 0) [5]).1 rfl,
   (backward_dispatch none 1 none [7, 5]).2 rfl 7 [5] rfl⟩

/-- The trace of `pre_optimizer_step` is the norm-tracking phase followed
by the clipping phase followed by the trainer-hook call. -/
lemma pre_opt_step_trace_shape (tr : Trainer) (model_is_lightning : Bool)
    (st : LModuleState) (gnd : List (String × Int))
    (optimizer optimizer_idx : Nat) :
    (pre_optimizer_step tr model_is_lightning st gnd optimizer
        optimizer_idx).2 =
      (if optimizer_idx = 0 then
          Event.trackGradNormCall ::
            (_track_grad_norm tr.track_grad_norm gnd st).2
        else []) ++
      ((Event.clipGradientsCall ::
          clip_gradients tr.use_deepspeed (some ()) optimizer optimizer_idx
            tr.gradient_clip_val tr.gradient_clip_algorithm) ++
        (if model_is_lightning then
            [Event.callHook ("on_before_optimizer_step") optimizer
              optimizer_idx]
          else [])) := by
  unfold pre_optimizer_step
  by_cases h : optimizer_idx = 0 <;> simp [h]

/-- C7: `pre_optimizer_step` invokes `_track_grad_norm` exactly when the
optimizer index is 0, and invokes `clip_gradients` on every call
regardless of the index. -/
theorem pre_optimizer_step_calls (tr : Trainer) (model_is_lightning : Bool)
    (st : LModuleState) (gnd : List (String × Int))
    (optimizer optimizer_idx : Nat) :
    (Event.trackGradNormCall ∈
        (pre_optimizer_step tr model_is_lightning st gnd optimizer
          optimizer_idx).2 ↔ optimizer_idx = 0)
  ∧ Event.clipGradientsCall ∈
      (pre_optimizer_step tr model_is_lightning st gnd optimizer
        optimizer_idx).2 := by
  rw [pre_opt_step_trace_shape]
  have hclip : Event.trackGradNormCall ∉
      clip_gradients tr.use_deepspeed (some ()) optimizer optimizer_idx
        tr.gradient_clip_val tr.gradient_clip_algorithm := fun hmem =>
    absurd (clip_gradients_events_clip _ _ _ _ _ _ _ hmem) (by decide)
  by_cases h : optimizer_idx = 0
  · rw [if_pos h]
    constructor
    · simp [h]
    · exact List.mem_cons.mpr (Or.inr (List.mem_append.mpr (Or.inr
        (List.mem_append.mpr (Or.inl (List.mem_cons_self _ _))))))
  · rw [if_neg h]
    constructor
    · constructor
      · intro hmem
        exfalso
        rw [List.nil_append] at hmem
        rcases List.mem_append.mp hmem with h1 | h1
        · rcases List.mem_cons.mp h1 with h2 | h2
          · exact Event.noConfusion h2
          · exact hclip h2
        · revert h1
          split <;> intro h1 <;> simp at h1
      · intro h0
        exact absurd h0 h
    · rw [List.nil_append]
      exact List.mem_append.mpr (Or.inl (List.mem_cons_self _ _))

/-- C6: within one invocation of `pre_optimizer_step`, every norm-tracking
event occurs strictly before every clipping event in the trace, and the
trace contains no optimizer-step event (the optimizer consumes gradients
only afterwards, in `optimizer_step`). -/
theorem pre_optimizer_step_norm_before_clip (tr : Trainer)
    (model_is_lightning : Bool) (st : LModuleState)
    (gnd : List (String × Int)) (optimizer optimizer_idx : Nat) :
    (∀ i j ei ej,
        ((pre_optimizer_step tr model_is_lightning st gnd optimizer
            optimizer_idx).2).get? i = some ei →
        ((pre_optimizer_step tr model_is_lightning st gnd optimizer
            optimizer_idx).2).get? j = some ej →
        isNormEvent ei = true → isClipEvent ej = true → i < j)
  ∧ ∀ e ∈ (pre_optimizer_step tr model_is_lightning st gnd optimizer
        optimizer_idx).2, e ≠ Event.optimizerStep := by
  have hx : ∀ e ∈ (if optimizer_idx = 0 then
        Event.trackGradNormCall ::
          (_track_grad_norm tr.track_grad_norm gnd st).2
      else []), isClipEvent e = false := by
    intro e he
    split at he
    · rcases List.mem_cons.mp he with h1 | h1
      · rw [h1]
        rfl
      · exact norm_not_clip e
          (track_grad_norm_events_norm tr.track_grad_norm gnd st e h1)
    · simp at he
  have hy : ∀ e ∈ (Event.clipGradientsCall ::
        clip_gradients tr.use_deepspeed (some ()) optimizer optimizer_idx
          tr.gradient_clip_val tr.gradient_clip_algorithm) ++
      (if model_is_lightning then
          [Event.callHook ("on_before_optimizer_step") optimizer
            optimizer_idx]
        else []), isNormEvent e = false := by
    intro e he
    rcases List.mem_append.mp he with h1 | h1
    · rcases List.mem_cons.mp h1 with h2 | h2
      · rw [h2]
        rfl
      · have := clip_gradients_events_clip tr.use_deepspeed (some ())
          optimizer optimizer_idx tr.gradient_clip_val
          tr.gradient_clip_algorithm e h2
        cases e <;> simp_all [isNormEvent, isClipEvent]
    · revert h1
      split <;> intro h1 <;> simp at h1
      rw [h1]
      rfl
  constructor
  · rw [pre_opt_step_trace_shape]
    exact ordered_append hx hy
  · rw [pre_opt_step_trace_shape]
    intro e he
    rcases List.mem_append.mp he with h1 | h1
    · have hnorm : isNormEvent e = true := by
        revert h1
        split <;> intro h1
        · rcases List.mem_cons.mp h1 with h2 | h2
          · rw [h2]
            rfl
          · exact track_grad_norm_events_norm tr.track_grad_norm gnd st e h2
        · simp at h1
      exact norm_not_step e hnorm
    · rcases List.mem_append.mp h1 with h2 | h2
      · rcases List.mem_cons.mp h2 with h3 | h3
        · rw [h3]
          simp
        · exact clip_not_step e (clip_gradients_events_clip tr.use_deepspeed
            (some ()) optimizer optimizer_idx tr.gradient_clip_val
            tr.gradient_clip_algorithm e h3)
      · revert h2
        split <;> intro h2 <;> simp at h2
        rw [h2]
        simp

/-- Witness for C6: on a concrete trace with norm tracking enabled, the
norm-call event at position 0 precedes the clip-call event at position 2,
and the first event is not the optimizer step. -/
theorem pre_optimizer_step_norm_before_clip_witness :
    (pre_optimizer_step (Trainer.mk 0 1 GradClipAlgorithmType.norm false)
        true (LModuleState.mk ("training_step")) [(("g"), 1)] 0 0).2.get? 0 =
      some Event.trackGradNormCall
  ∧ (0 : Nat) < 2
  ∧ Event.trackGradNormCall ≠ Event.optimizerStep := by
  refine ⟨by decide, ?_, ?_⟩
  · exact (pre_optimizer_step_norm_before_clip
      (Trainer.mk 0 1 GradClipAlgorithmType.norm false) true
      (LModuleState.mk ("training_step")) [(("g"), 1)] 0 0).1 0 2
      Event.trackGradNormCall Event.clipGradientsCall (by decide) (by decide)
      (by decide) (by decide)
  · exact (pre_optimizer_step_norm_before_clip
      (Trainer.mk 0 1 GradClipAlgorithmType.norm false) true
      (LModuleState.mk ("training_step")) [(("g"), 1)] 0 0).2
      Event.trackGradNormCall (by decide)
